import Mathlib

/-!
Verification development for the Android Camera2 capture plugin
(`android-camera2-capture.cpp`).  The C++ code is shallowly embedded:
the filter context becomes a Lean structure, each static function a Lean
function over that structure, platform calls (camera manager, image
reader) are oracles passed in as explicit arguments, and side effects
that matter to the properties (repeating-request submission, host
notifications, warnings) are recorded in an event list.
-/

namespace Camera2

/-- MSVideoSize from mediastreamer2: a pair of C `int` fields. -/
structure MSVideoSize where
  width : Int
  height : Int
deriving DecidableEq, Repr

/-- AndroidCamera2Device: camera id (abstracted to a number), sensor
orientation in degrees, and whether the lens faces back. -/
structure AndroidCamera2Device where
  camId : Nat
  orientation : Int
  back_facing : Bool
deriving DecidableEq, Repr

/-- AIMAGE_FORMAT_YUV_420_888 from the NDK media headers. -/
def AIMAGE_FORMAT_YUV_420_888 : Int := 35

/-- AndroidCamera2Context: the filter state.  Resource handles
(`ACameraDevice*`, `ACameraCaptureSession*`, ...) are embedded as
booleans — `true` means the pointer field is non-null.  The pending
frame (`mblk_t *frame`) is an optional frame id. -/
structure AndroidCamera2Context where
  capturing : Bool
  device : Option AndroidCamera2Device
  rotation : Int
  captureSize : MSVideoSize
  captureFormat : Int
  frame : Option Nat
  cameraDevice : Bool
  captureSession : Bool
  captureSessionOutputContainer : Bool
  captureWindow : Bool
  captureRequest : Bool
  cameraCaptureOutputTarget : Bool
  sessionCaptureOutput : Bool
  imageReader : Bool
deriving DecidableEq, Repr

/-- The `AndroidCamera2Context` constructor: not capturing, no device
bound yet, zero rotation, size (0,0), YUV capture format, no pending
frame, and every resource handle null. -/
def newAndroidCamera2Context : AndroidCamera2Context where
  capturing := false
  device := none
  rotation := 0
  captureSize := ⟨0, 0⟩
  captureFormat := AIMAGE_FORMAT_YUV_420_888
  frame := none
  cameraDevice := false
  captureSession := false
  captureSessionOutputContainer := false
  captureWindow := false
  captureRequest := false
  cameraCaptureOutputTarget := false
  sessionCaptureOutput := false
  imageReader := false

/-- android_camera2_capture_get_orientation.  The C code dereferences
`d->device`; a null device is undefined behaviour, embedded as `none`.
C's `%` on `int` is truncated remainder, embedded as `Int.tmod`. -/
def android_camera2_capture_get_orientation (d : AndroidCamera2Context) : Option Int :=
  match d.device with
  | none => none
  | some dev =>
    let orientation := dev.orientation
    let orientation := if dev.back_facing then orientation - d.rotation else orientation + d.rotation
    let orientation := if orientation < 0 then orientation + 360 else orientation
    some (Int.tmod orientation 360)

/-- Size metadata produced by android_camera2_capture_image_to_mblkt:
the incoming image dimensions are swapped when `orientation % 180 != 0`. -/
def android_camera2_capture_image_to_mblkt_size (d : AndroidCamera2Context)
    (imgWidth imgHeight : Int) : Option MSVideoSize :=
  (android_camera2_capture_get_orientation d).map fun orientation =>
    if Int.tmod orientation 180 ≠ 0 then ⟨imgHeight, imgWidth⟩ else ⟨imgWidth, imgHeight⟩

/-- android_camera2_capture_get_vsize: reports the configured size,
swapped when the effective orientation is not a multiple of 180. -/
def android_camera2_capture_get_vsize (d : AndroidCamera2Context) : Option MSVideoSize :=
  (android_camera2_capture_get_orientation d).map fun orientation =>
    if Int.tmod orientation 180 = 0 then ⟨d.captureSize.width, d.captureSize.height⟩
    else ⟨d.captureSize.height, d.captureSize.width⟩

/-- Specification formula for the effective orientation (from the spec
text): `(sensorOrientation ∓ rotationHint) mod 360`, mathematically
normalized into `[0,360)` (Lean's `Int.emod` with positive modulus). -/
def spec_effective_orientation (back : Bool) (sensor hint : Int) : Int :=
  (if back then sensor - hint else sensor + hint) % 360

/-- Context holding one bound device with the given sensor orientation
and facing, with the rotation hint set. -/
def ctxFor (camId : Nat) (sensor : Int) (back : Bool) (hint : Int) : AndroidCamera2Context :=
  { newAndroidCamera2Context with device := some ⟨camId, sensor, back⟩, rotation := hint }

/- ********************* Device detection ********************* -/

/-- One enumerated camera as the platform reports it:
id, ACAMERA_SENSOR_ORIENTATION, ACAMERA_LENS_FACING, and whether
ACameraManager_getCameraCharacteristics succeeded for it. -/
structure CameraInfo where
  camId : Nat
  orientation : Int
  back_facing : Bool
  characteristicsOk : Bool
deriving DecidableEq, Repr

/-- Result of detection: the webcam manager's list (registration uses
`ms_web_cam_manager_prepend_cam`, embedded as list `cons`), and the ids
skipped because a camera with their facing was already registered. -/
structure DetectResult where
  cams : List AndroidCamera2Device
  skipped : List Nat
deriving DecidableEq, Repr

/-- The per-camera loop of android_camera2_capture_detect. -/
def android_camera2_capture_detect_loop :
    List CameraInfo → Bool → Bool → DetectResult → DetectResult
  | [], _, _, acc => acc
  | info :: rest, back_facing_found, front_facing_found, acc =>
    if !info.characteristicsOk then
      android_camera2_capture_detect_loop rest back_facing_found front_facing_found acc
    else
      let device : AndroidCamera2Device := ⟨info.camId, info.orientation, info.back_facing⟩
      if (info.back_facing && !back_facing_found) || (!info.back_facing && !front_facing_found) then
        android_camera2_capture_detect_loop rest
          (back_facing_found || info.back_facing)
          (front_facing_found || !info.back_facing)
          { acc with cams := device :: acc.cams }
      else
        android_camera2_capture_detect_loop rest back_facing_found front_facing_found
          { acc with skipped := acc.skipped ++ [info.camId] }

/-- android_camera2_capture_detect: bails out when the id-list query
fails or no camera is present, otherwise runs the loop with both
facing-found flags clear. -/
def android_camera2_capture_detect (enumOk : Bool) (infos : List CameraInfo) : DetectResult :=
  if !enumOk then ⟨[], []⟩
  else if infos.length < 1 then ⟨[], []⟩
  else android_camera2_capture_detect_loop infos false false ⟨[], []⟩

/- ********************* Session lifecycle ********************* -/

/-- Externally visible effects of the lifecycle functions: the
repeating-request submission (recording whether the session handle
passed to `ACameraCaptureSession_setRepeatingRequest` was non-null),
session stop/close calls, the host notification, and warnings. -/
inductive Event
  | warnNotConfigured
  | warnAlreadyCapturing
  | warnAlreadyStopped
  | setRepeatingRequest (sessionNonNull : Bool)
  | stopRepeating
  | closeSession
  | notifyPreviewSizeChanged (size : MSVideoSize)
deriving DecidableEq, Repr

/-- Success/failure oracle for the platform calls made during one
start attempt. -/
structure Platform where
  openOk : Bool
  readerNewOk : Bool
  getWindowOk : Bool
  createRequestOk : Bool
deriving DecidableEq, Repr

/-- android_camera2_capture_open_camera: errors out if no device is
selected, otherwise opens via the camera manager; on failure the
`cameraDevice` handle is left untouched (null). -/
def android_camera2_capture_open_camera (p : Platform) (d : AndroidCamera2Context) :
    AndroidCamera2Context :=
  match d.device with
  | none => d
  | some _ => if p.openOk then { d with cameraDevice := true } else d

/-- android_camera2_capture_close_camera: closes and nulls the device
handle when it is set. -/
def android_camera2_capture_close_camera (d : AndroidCamera2Context) :
    AndroidCamera2Context :=
  if d.cameraDevice then { d with cameraDevice := false } else d

/-- android_camera2_capture_start.  Guards: zero size or already
capturing are no-ops with a warning.  Then: open the camera if the
handle is null (the result is NOT checked), create the output
container, create the image reader (failure returns), get and acquire
the capture window (failure returns), create the output target, create
the capture request (failure only logs), create the session output, add
it to the container, issue the repeating request on the (never
assigned) `captureSession` handle, and set `capturing`. -/
def android_camera2_capture_start (p : Platform) (d : AndroidCamera2Context) :
    AndroidCamera2Context × List Event :=
  if d.captureSize.width = 0 ∨ d.captureSize.height = 0 then
    (d, [Event.warnNotConfigured])
  else if d.capturing then
    (d, [Event.warnAlreadyCapturing])
  else
    let d := if !d.cameraDevice then android_camera2_capture_open_camera p d else d
    let d := { d with captureSessionOutputContainer := true }
    if !p.readerNewOk then
      (d, [])
    else
      let d := { d with imageReader := true }
      if !p.getWindowOk then
        (d, [])
      else
        let d := { d with captureWindow := true }
        let d := { d with cameraCaptureOutputTarget := true }
        let d := if p.createRequestOk then { d with captureRequest := true } else d
        let d := { d with sessionCaptureOutput := true }
        ({ d with capturing := true }, [Event.setRepeatingRequest d.captureSession])

/-- android_camera2_capture_stop: a no-op (with a warning) when not
capturing; otherwise clears `capturing` first, then releases every
non-null handle in order, stopping/closing the capture session only
when its handle is non-null, and finally closes the camera. -/
def android_camera2_capture_stop (d : AndroidCamera2Context) :
    AndroidCamera2Context × List Event :=
  if !d.capturing then
    (d, [Event.warnAlreadyStopped])
  else
    let d := { d with capturing := false }
    let (d, evs) :=
      if d.captureSession then
        ({ d with captureSession := false }, [Event.stopRepeating, Event.closeSession])
      else (d, ([] : List Event))
    let d := if d.cameraCaptureOutputTarget then { d with cameraCaptureOutputTarget := false } else d
    let d := if d.captureRequest then { d with captureRequest := false } else d
    let d := if d.sessionCaptureOutput then { d with sessionCaptureOutput := false } else d
    let d := if d.captureWindow then { d with captureWindow := false } else d
    let d := if d.imageReader then { d with imageReader := false } else d
    let d := if d.captureSessionOutputContainer then { d with captureSessionOutputContainer := false } else d
    (android_camera2_capture_close_camera d, evs)

/- ********************* Resolution negotiation ********************* -/

/-- One entry of ACAMERA_SCALER_AVAILABLE_STREAM_CONFIGURATIONS:
(format, width, height, input) quadruple. -/
structure StreamConfig where
  format : Int
  width : Int
  height : Int
  input : Bool
deriving DecidableEq, Repr

/-- The scan loop of android_camera2_capture_choose_best_configurations,
carrying the backup size and the exact-match flag.  Areas are compared
with exact integer arithmetic (the C code compares them as doubles,
exact for realistic camera dimensions). -/
def android_camera2_capture_choose_loop (askedSize : MSVideoSize) (fmt : Int) :
    List StreamConfig → MSVideoSize → Bool → MSVideoSize × Bool
  | [], backup, found => (backup, found)
  | c :: rest, backup, found =>
    if c.input then android_camera2_capture_choose_loop askedSize fmt rest backup found
    else if c.format = fmt then
      if c.width = askedSize.width ∧ c.height = askedSize.height then
        android_camera2_capture_choose_loop askedSize fmt rest backup true
      else
        let askedRatio := askedSize.width * askedSize.height
        let currentSizeRatio := c.width * c.height
        let backupRatio := backup.width * backup.height
        if backupRatio = 0 ∨ |askedRatio - currentSizeRatio| < |askedRatio - backupRatio| then
          android_camera2_capture_choose_loop askedSize fmt rest ⟨c.width, c.height⟩ found
        else
          android_camera2_capture_choose_loop askedSize fmt rest backup found
    else android_camera2_capture_choose_loop askedSize fmt rest backup found

/-- android_camera2_capture_choose_best_configurations: keeps the
requested size when an exact match exists among the non-input entries
of the capture format, otherwise replaces it with the backup size
(initialized to (0,0)). -/
def android_camera2_capture_choose_best_configurations (cfgs : List StreamConfig)
    (d : AndroidCamera2Context) : AndroidCamera2Context :=
  let r := android_camera2_capture_choose_loop d.captureSize d.captureFormat cfgs ⟨0, 0⟩ false
  if r.2 then d else { d with captureSize := r.1 }

/-- android_camera2_capture_set_vsize: returns -1 without any change
when the requested size equals the current one; otherwise adopts the
requested size, stops, negotiates against the configuration list,
restarts, and notifies the host of the final size. -/
def android_camera2_capture_set_vsize (p : Platform) (cfgs : List StreamConfig)
    (requestedSize : MSVideoSize) (d : AndroidCamera2Context) :
    Int × AndroidCamera2Context × List Event :=
  if d.captureSize.width = requestedSize.width ∧ d.captureSize.height = requestedSize.height then
    (-1, d, [])
  else
    let d := { d with captureSize := requestedSize }
    let r1 := android_camera2_capture_stop d
    let d := android_camera2_capture_choose_best_configurations cfgs r1.1
    let r2 := android_camera2_capture_start p d
    (0, r2.1, r1.2 ++ r2.2 ++ [Event.notifyPreviewSizeChanged r2.1.captureSize])

/- ********************* Filter lifecycle hooks ********************* -/

/-- android_camera2_capture_preprocess: starts the session when a
non-zero size is configured and capture is not active. -/
def android_camera2_capture_preprocess (p : Platform) (d : AndroidCamera2Context) :
    AndroidCamera2Context × List Event :=
  if d.captureSize.width ≠ 0 ∧ d.captureSize.height ≠ 0 ∧ d.capturing = false then
    android_camera2_capture_start p d
  else (d, [])

/-- android_camera2_capture_process: drains the pending frame, if any,
into the output queue. -/
def android_camera2_capture_process (d : AndroidCamera2Context) :
    AndroidCamera2Context × List Nat :=
  match d.frame with
  | some m => ({ d with frame := none }, [m])
  | none => (d, [])

/-- android_camera2_capture_postprocess: stops the session if active. -/
def android_camera2_capture_postprocess (d : AndroidCamera2Context) :
    AndroidCamera2Context × List Event :=
  if d.capturing then android_camera2_capture_stop d else (d, [])

/-- android_camera2_capture_set_device_rotation. -/
def android_camera2_capture_set_device_rotation (r : Int) (d : AndroidCamera2Context) :
    AndroidCamera2Context :=
  { d with rotation := r }

/-- android_camera2_capture_on_image_available, state effect only:
under the format check, a successful acquire, the capturing flag and
the fps/conversion gates, the freshly converted frame replaces the
pending one, freeing the frame it overwrites (returned as the list of
freed frames). -/
def android_camera2_capture_on_image_available (m : Nat)
    (formatOk acquireOk fpsOk convOk : Bool) (d : AndroidCamera2Context) :
    AndroidCamera2Context × List Nat :=
  if formatOk then
    if acquireOk then
      if d.capturing then
        if fpsOk then
          if convOk then
            match d.frame with
            | some old => ({ d with frame := some m }, [old])
            | none => ({ d with frame := some m }, [])
          else (d, [])
        else (d, [])
      else (d, [])
    else (d, [])
  else (d, [])

/-- One operation of the filter, with the platform responses it needs. -/
inductive FilterOp
  | bindDevice (dev : AndroidCamera2Device)
  | preprocessOp (p : Platform)
  | processOp
  | postprocessOp
  | startOp (p : Platform)
  | stopOp
  | setVsizeOp (p : Platform) (cfgs : List StreamConfig) (sz : MSVideoSize)
  | setRotationOp (r : Int)
  | onImageOp (m : Nat) (formatOk acquireOk fpsOk convOk : Bool)

/-- One step of the filter machine. -/
def filterStep (d : AndroidCamera2Context) : FilterOp → AndroidCamera2Context × List Event
  | .bindDevice dev => ({ d with device := some dev }, [])
  | .preprocessOp p => android_camera2_capture_preprocess p d
  | .processOp => ((android_camera2_capture_process d).1, [])
  | .postprocessOp => android_camera2_capture_postprocess d
  | .startOp p => android_camera2_capture_start p d
  | .stopOp => android_camera2_capture_stop d
  | .setVsizeOp p cfgs sz =>
    let r := android_camera2_capture_set_vsize p cfgs sz d
    (r.2.1, r.2.2)
  | .setRotationOp r => (android_camera2_capture_set_device_rotation r d, [])
  | .onImageOp m f a fp c =>
    ((android_camera2_capture_on_image_available m f a fp c d).1, [])

/-- Running a sequence of operations from a state, accumulating events. -/
def filterRun : AndroidCamera2Context → List FilterOp → AndroidCamera2Context × List Event
  | d, [] => (d, [])
  | d, op :: ops =>
    let r1 := filterStep d op
    let r2 := filterRun r1.1 ops
    (r2.1, r1.2 ++ r2.2)

/- ********************* Theorems: C4 ********************* -/

/-- Helper: for a non-negative left operand, C truncated `%` agrees
with mathematical `mod`. -/
theorem tmod_eq_emod_of_nonneg (a b : Int) (ha : 0 ≤ a) (hb : 0 ≤ b) :
    Int.tmod a b = a % b := Int.tmod_eq_emod ha hb

theorem spec_effective_orientation_back (s r : Int) :
    spec_effective_orientation true s r = (s - r) % 360 := rfl

theorem spec_effective_orientation_front (s r : Int) :
    spec_effective_orientation false s r = (s + r) % 360 := rfl

/-- C4 counterexample: a back-facing device with sensor orientation 0
and rotation hint 450.  The code computes −90 (the single `+= 360`
compensation and C truncated `%` do not normalize), while the claim's
`(0 − 450) mod 360` normalized into `[0,360)` is 270. -/
theorem C4_counterexample :
    android_camera2_capture_get_orientation (ctxFor 0 0 true 450) = some (-90) ∧
    spec_effective_orientation true 0 450 = 270 ∧
    ((-90 : Int) = 270 → False) ∧
    ((0 : Int) ≤ -90 → False) := by
  refine ⟨?_, by decide, by decide, by decide⟩
  decide

/-- C4 (amended): for sensor orientation in `[0,360)` and rotation hint
in `[0,360]`, the computed orientation equals
`(sensorOrientation ∓ rotationHint) mod 360` (− for back-facing, + for
front-facing), lies in `[0,360)`, and the output frame dimensions are
swapped iff that value is not a multiple of 180 — which, when sensor
orientation and hint are multiples of 90, holds exactly when the
effective orientation is 90 or 270. -/
theorem C4_orientation_math (camId : Nat) (sensor hint : Int) (back : Bool) (w h : Int)
    (hs0 : 0 ≤ sensor) (hs1 : sensor < 360) (hh0 : 0 ≤ hint) (hh1 : hint ≤ 360) :
    android_camera2_capture_get_orientation (ctxFor camId sensor back hint)
      = some (spec_effective_orientation back sensor hint) ∧
    0 ≤ spec_effective_orientation back sensor hint ∧
    spec_effective_orientation back sensor hint < 360 ∧
    android_camera2_capture_image_to_mblkt_size (ctxFor camId sensor back hint) w h
      = some (if spec_effective_orientation back sensor hint % 180 ≠ 0
              then ⟨h, w⟩ else ⟨w, h⟩) ∧
    (sensor % 90 = 0 → hint % 90 = 0 →
      ((spec_effective_orientation back sensor hint % 180 ≠ 0) ↔
        (spec_effective_orientation back sensor hint = 90 ∨
         spec_effective_orientation back sensor hint = 270))) := by
  have hcompute :
      android_camera2_capture_get_orientation (ctxFor camId sensor back hint)
        = some (spec_effective_orientation back sensor hint) := by
    cases back with
    | true =>
      have hred : android_camera2_capture_get_orientation (ctxFor camId sensor true hint)
          = some (Int.tmod (if sensor - hint < 0 then sensor - hint + 360 else sensor - hint) 360) :=
        rfl
      rw [hred, spec_effective_orientation_back]
      rcases lt_or_le (sensor - hint) 0 with hneg | hpos
      · rw [if_pos hneg, tmod_eq_emod_of_nonneg _ _ (by omega) (by omega)]
        congr 1
        omega
      · rw [if_neg (not_lt.mpr hpos), tmod_eq_emod_of_nonneg _ _ (by omega) (by omega)]
    | false =>
      have hred : android_camera2_capture_get_orientation (ctxFor camId sensor false hint)
          = some (Int.tmod (if sensor + hint < 0 then sensor + hint + 360 else sensor + hint) 360) :=
        rfl
      rw [hred, spec_effective_orientation_front]
      rw [if_neg (by omega), tmod_eq_emod_of_nonneg _ _ (by omega) (by omega)]
  have heff0 : 0 ≤ spec_effective_orientation back sensor hint :=
    Int.emod_nonneg _ (by norm_num)
  have heff1 : spec_effective_orientation back sensor hint < 360 :=
    Int.emod_lt_of_pos _ (by norm_num)
  refine ⟨hcompute, heff0, heff1, ?_, ?_⟩
  · unfold android_camera2_capture_image_to_mblkt_size
    rw [hcompute]
    simp only [Option.map_some']
    rw [tmod_eq_emod_of_nonneg _ _ heff0 (by norm_num)]
  · intro h90 hh90
    have : spec_effective_orientation back sensor hint % 90 = 0 := by
      cases back
      · rw [spec_effective_orientation_front]
        omega
      · rw [spec_effective_orientation_back]
        omega
    omega

/-- C4 witness: back-facing, sensor 90, hint 0 gives effective
orientation 90 and swapped 640×480 output. -/
theorem C4_orientation_math_witness :
    android_camera2_capture_get_orientation (ctxFor 7 90 true 0)
      = some (spec_effective_orientation true 90 0) ∧
    0 ≤ spec_effective_orientation true 90 0 ∧
    spec_effective_orientation true 90 0 < 360 ∧
    android_camera2_capture_image_to_mblkt_size (ctxFor 7 90 true 0) 640 480
      = some (if spec_effective_orientation true 90 0 % 180 ≠ 0
              then ⟨480, 640⟩ else ⟨640, 480⟩) ∧
    ((90 : Int) % 90 = 0 → (0 : Int) % 90 = 0 →
      ((spec_effective_orientation true 90 0 % 180 ≠ 0) ↔
        (spec_effective_orientation true 90 0 = 90 ∨
         spec_effective_orientation true 90 0 = 270))) :=
  C4_orientation_math 7 90 0 true 640 480 (by decide) (by decide) (by decide) (by decide)

/- ********************* Theorems: C3 ********************* -/

/-- C3 counterexample: enumeration [back, front, back, back] with ids
0..3.  Registration prepends, so the registry reads front-facing first
then back-facing — the claim's order (first back-facing before first
front-facing) does not hold. -/
theorem C3_counterexample :
    (android_camera2_capture_detect true
      [⟨0, 90, true, true⟩, ⟨1, 270, false, true⟩,
       ⟨2, 90, true, true⟩, ⟨3, 90, true, true⟩]).cams.map
        AndroidCamera2Device.back_facing = [false, true] ∧
    ((android_camera2_capture_detect true
      [⟨0, 90, true, true⟩, ⟨1, 270, false, true⟩,
       ⟨2, 90, true, true⟩, ⟨3, 90, true, true⟩]).cams.map
        AndroidCamera2Device.back_facing = [true, false] → False) := by
  refine ⟨?_, ?_⟩ <;> decide

/-- C3 (amended): for every successful enumeration of four cameras with
facings [back, front, back, back], exactly the first back-facing and the
first front-facing camera are registered and the two later back-facing
ones are skipped (logged, not an error); since registration prepends,
the registry lists the front-facing device first and the back-facing
device second (reverse of encounter order). -/
theorem C3_detect_dedup (a b c e : Nat) (oa ob oc oe : Int) :
    android_camera2_capture_detect true
      [⟨a, oa, true, true⟩, ⟨b, ob, false, true⟩, ⟨c, oc, true, true⟩, ⟨e, oe, true, true⟩]
      = ⟨[⟨b, ob, false⟩, ⟨a, oa, true⟩], [c, e]⟩ := by
  simp [android_camera2_capture_detect, android_camera2_capture_detect_loop]

/- ********************* Helper lemmas ********************* -/

/-- All eight resource handle fields of the context are null. -/
def allHandlesNull (d : AndroidCamera2Context) : Bool :=
  !d.cameraDevice && !d.captureSession &&
  !d.captureSessionOutputContainer && !d.captureWindow &&
  !d.captureRequest && !d.cameraCaptureOutputTarget &&
  !d.sessionCaptureOutput && !d.imageReader

theorem open_camera_fail (p : Platform) (d : AndroidCamera2Context)
    (h : d.device = none ∨ p.openOk = false) :
    android_camera2_capture_open_camera p d = d := by
  unfold android_camera2_capture_open_camera
  rcases h with h | h
  · rw [h]
  · cases hd : d.device
    · rfl
    · rw [h]
      simp

theorem open_camera_capturing (p : Platform) (d : AndroidCamera2Context) :
    (android_camera2_capture_open_camera p d).capturing = d.capturing := by
  unfold android_camera2_capture_open_camera
  rcases hd : d.device with _ | dev
  · rfl
  · cases hop : p.openOk <;> simp [hop]

theorem stop_not_capturing (d : AndroidCamera2Context) (h : d.capturing = false) :
    android_camera2_capture_stop d = (d, [Event.warnAlreadyStopped]) := by
  unfold android_camera2_capture_stop
  rw [h]
  rfl

theorem stop_capturing (d : AndroidCamera2Context) (h : d.capturing = true) :
    android_camera2_capture_stop d =
      ({ d with
          capturing := false, cameraDevice := false, captureSession := false,
          captureSessionOutputContainer := false, captureWindow := false,
          captureRequest := false, cameraCaptureOutputTarget := false,
          sessionCaptureOutput := false, imageReader := false },
       if d.captureSession then [Event.stopRepeating, Event.closeSession] else []) := by
  obtain ⟨cap, dev, rot, size, fmt, fr, cd, cs, csoc, cw, cr, ccot, sco, ir⟩ := d
  simp only at h
  subst h
  unfold android_camera2_capture_stop android_camera2_capture_close_camera
  cases cs <;> cases csoc <;> cases cw <;> cases cr <;> cases ccot <;>
    cases sco <;> cases ir <;> cases cd <;> rfl

/- ********************* Theorems: C8 ********************* -/

/-- C8: setSize with a size equal to the current configured size keeps
the state exactly as it was, returns the no-change signal -1 and emits
no event: no stop/reconfigure/start cycle and no notification. -/
theorem C8_set_vsize_noop (p : Platform) (cfgs : List StreamConfig)
    (d : AndroidCamera2Context) (sz : MSVideoSize) (h : d.captureSize = sz) :
    android_camera2_capture_set_vsize p cfgs sz d = (-1, d, []) := by
  unfold android_camera2_capture_set_vsize
  rw [if_pos ⟨by rw [h], by rw [h]⟩]

/-- C8 witness: a capturing 640×480 context asked for 640×480 again. -/
theorem C8_set_vsize_noop_witness :
    android_camera2_capture_set_vsize ⟨true, true, true, true⟩ [] ⟨640, 480⟩
      { newAndroidCamera2Context with captureSize := ⟨640, 480⟩, capturing := true }
      = (-1, { newAndroidCamera2Context with captureSize := ⟨640, 480⟩, capturing := true }, []) :=
  C8_set_vsize_noop ⟨true, true, true, true⟩ [] _ ⟨640, 480⟩ rfl

/- ********************* Theorems: C9 ********************* -/

/-- Minimal model of the MSFilter object as read by the callback guard. -/
structure MSFilterModel where
  ticker : Option Nat
deriving DecidableEq, Repr

/-- Short-circuit `&&` where an operand evaluation may be undefined
behaviour (`none`); the right operand is evaluated only when the left
yields true. -/
def sc_and (a : Option Bool) (b : Unit → Option Bool) : Option Bool :=
  match a with
  | none => none
  | some false => some false
  | some true => b ()

/-- The image-available callback's torn-down-filter guard
`filter == nullptr && filter->ticker == nullptr`: the left operand is a
defined null test; the right dereferences `filter`, which is undefined
behaviour when `filter` is null. -/
def torn_down_guard (filter : Option MSFilterModel) : Option Bool :=
  sc_and (some (decide (filter = none)))
    (fun _ => filter.map (fun f => decide (f.ticker = none)))

/-- C9: the guard never evaluates to true in a well-defined execution —
for a null filter the conjunction's second clause is a null dereference
(undefined) rather than false, and for a non-null filter the first
clause already fails — so the guarded early-return is unreachable. -/
theorem C9_guard_unreachable :
    (∀ f : Option MSFilterModel, (torn_down_guard f).getD false = false) ∧
    torn_down_guard none = none := by
  constructor
  · intro f
    cases f <;> rfl
  · rfl

/- ********************* Theorems: C2 ********************* -/

/-- C2 counterexample.  Input A: a configured 640×480 context with no
device bound — start() is not a no-op (it runs to completion and sets
`capturing`).  Input B: device bound but `ACameraManager_openCamera`
fails — the transition is not aborted: every later configuration step
runs and start() ends with `capturing = true` and a null device
handle. -/
theorem C2_counterexample :
    ((android_camera2_capture_start ⟨true, true, true, true⟩
        { newAndroidCamera2Context with captureSize := ⟨640, 480⟩ }).1.capturing = true) ∧
    ((android_camera2_capture_start ⟨true, true, true, true⟩
        { newAndroidCamera2Context with captureSize := ⟨640, 480⟩ }).1
      = { newAndroidCamera2Context with captureSize := ⟨640, 480⟩ } → False) ∧
    ((android_camera2_capture_start ⟨false, true, true, true⟩
        { newAndroidCamera2Context with
            captureSize := ⟨640, 480⟩, device := some ⟨0, 90, true⟩ }).1.capturing = true) ∧
    ((android_camera2_capture_start ⟨false, true, true, true⟩
        { newAndroidCamera2Context with
            captureSize := ⟨640, 480⟩, device := some ⟨0, 90, true⟩ }).1.cameraDevice = false) := by
  refine ⟨by decide, by decide, by decide, by decide⟩

/-- C2 (amended): start() is a no-op (beyond a warning) iff the
configured size is zero or capture is already active — a missing device
is not checked; and a device-open failure (or missing device) does not
abort the transition: when image-reader creation and window acquisition
succeed, start() performs the remaining configuration with a null
device handle and ends with `capturing = true`; only image-reader
creation failure or capture-window acquisition failure abort, leaving
`capturing = false`. -/
theorem C2_start_guards (p : Platform) (d : AndroidCamera2Context) :
    (d.captureSize.width = 0 ∨ d.captureSize.height = 0 →
      android_camera2_capture_start p d = (d, [Event.warnNotConfigured])) ∧
    (¬(d.captureSize.width = 0 ∨ d.captureSize.height = 0) → d.capturing = true →
      android_camera2_capture_start p d = (d, [Event.warnAlreadyCapturing])) ∧
    (¬(d.captureSize.width = 0 ∨ d.captureSize.height = 0) → d.capturing = false →
      d.cameraDevice = false → (d.device = none ∨ p.openOk = false) →
      p.readerNewOk = true → p.getWindowOk = true →
      (android_camera2_capture_start p d).1.capturing = true ∧
      (android_camera2_capture_start p d).1.cameraDevice = false) ∧
    (¬(d.captureSize.width = 0 ∨ d.captureSize.height = 0) → d.capturing = false →
      p.readerNewOk = false →
      (android_camera2_capture_start p d).1.capturing = false ∧
      (android_camera2_capture_start p d).2 = []) ∧
    (¬(d.captureSize.width = 0 ∨ d.captureSize.height = 0) → d.capturing = false →
      p.readerNewOk = true → p.getWindowOk = false →
      (android_camera2_capture_start p d).1.capturing = false ∧
      (android_camera2_capture_start p d).2 = []) := by
  refine ⟨?_, ?_, ?_, ?_, ?_⟩
  · intro hsz
    unfold android_camera2_capture_start
    rw [if_pos hsz]
  · intro hsz hcap
    unfold android_camera2_capture_start
    rw [if_neg hsz, hcap]
    rfl
  · intro hsz hcap hcd hfail hr hw
    unfold android_camera2_capture_start
    rw [if_neg hsz, hcap, hcd, open_camera_fail p d hfail, hr, hw]
    constructor
    · simp
    · split_ifs <;> simp_all
  · intro hsz hcap hr
    unfold android_camera2_capture_start
    rw [if_neg hsz, hcap, hr]
    constructor
    · cases hcd : d.cameraDevice <;> simp [hcd, open_camera_capturing, hcap]
    · simp
  · intro hsz hcap hr hw
    unfold android_camera2_capture_start
    rw [if_neg hsz, hcap, hr, hw]
    constructor
    · cases hcd : d.cameraDevice <;> simp [hcd, open_camera_capturing, hcap]
    · simp

/-- C2 witness: the guards and the abort path exercised at concrete
inputs — a zero-size context, an already-capturing context, an
open-failure run that still ends capturing, and a reader-failure run
that ends not capturing. -/
theorem C2_start_guards_witness :
    (android_camera2_capture_start ⟨true, true, true, true⟩ newAndroidCamera2Context
      = (newAndroidCamera2Context, [Event.warnNotConfigured])) ∧
    ((android_camera2_capture_start ⟨false, true, true, true⟩
        { newAndroidCamera2Context with
            captureSize := ⟨640, 480⟩, device := some ⟨0, 90, true⟩ }).1.capturing = true) ∧
    ((android_camera2_capture_start ⟨true, false, true, true⟩
        { newAndroidCamera2Context with
            captureSize := ⟨640, 480⟩, device := some ⟨0, 90, true⟩ }).1.capturing = false) :=
  ⟨(C2_start_guards ⟨true, true, true, true⟩ newAndroidCamera2Context).1 (Or.inl rfl),
   ((C2_start_guards ⟨false, true, true, true⟩
      { newAndroidCamera2Context with
          captureSize := ⟨640, 480⟩, device := some ⟨0, 90, true⟩ }).2.2.1 (by decide) rfl rfl (Or.inr rfl) rfl rfl).1,
   ((C2_start_guards ⟨true, false, true, true⟩
      { newAndroidCamera2Context with
          captureSize := ⟨640, 480⟩, device := some ⟨0, 90, true⟩ }).2.2.2.1 (by decide) rfl rfl).1⟩

/- ********************* Theorems: C7 ********************* -/

/-- C7 counterexample: a start aborted by an image-reader creation
failure (reached through setSize) leaves the device handle and the
output container allocated with `capturing = false`; two subsequent
stop() calls are no-ops and do not release them, so after the second
stop not every resource handle field is null. -/
theorem C7_counterexample :
    ((filterRun newAndroidCamera2Context
      [FilterOp.bindDevice ⟨0, 90, true⟩,
       FilterOp.setVsizeOp ⟨true, false, true, true⟩ [⟨35, 640, 480, false⟩] ⟨640, 480⟩,
       FilterOp.stopOp, FilterOp.stopOp]).1.cameraDevice = true) ∧
    ((filterRun newAndroidCamera2Context
      [FilterOp.bindDevice ⟨0, 90, true⟩,
       FilterOp.setVsizeOp ⟨true, false, true, true⟩ [⟨35, 640, 480, false⟩] ⟨640, 480⟩,
       FilterOp.stopOp, FilterOp.stopOp]).1.captureSessionOutputContainer = true) := by
  refine ⟨by decide, by decide⟩

/-- C7 (amended): a stop() on a non-capturing context — a second stop
in a row, or a stop before any start — changes no state (only a warning
is logged); after a stop from a capturing state every resource handle
field is null, so stop-stop from a capturing state, and stop on the
freshly constructed context, leave every handle null; but a start
aborted by a platform failure can leave handles set that a subsequent
(no-op) stop does not release. -/
theorem C7_stop_idempotent (d : AndroidCamera2Context) :
    (d.capturing = false →
      android_camera2_capture_stop d = (d, [Event.warnAlreadyStopped])) ∧
    (d.capturing = true →
      allHandlesNull (android_camera2_capture_stop d).1 = true ∧
      (android_camera2_capture_stop d).1.capturing = false ∧
      android_camera2_capture_stop (android_camera2_capture_stop d).1
        = ((android_camera2_capture_stop d).1, [Event.warnAlreadyStopped])) ∧
    (android_camera2_capture_stop newAndroidCamera2Context
      = (newAndroidCamera2Context, [Event.warnAlreadyStopped]) ∧
     allHandlesNull newAndroidCamera2Context = true) := by
  refine ⟨fun h => stop_not_capturing d h, fun h => ?_, ?_, by decide⟩
  · rw [stop_capturing d h]
    refine ⟨rfl, rfl, ?_⟩
    exact stop_not_capturing _ rfl
  · exact stop_not_capturing newAndroidCamera2Context rfl

/-- C7 witness: stop from a fully populated capturing state nulls all
handles, and the second stop is a no-op; also a premature stop on the
fresh context is a no-op. -/
theorem C7_stop_idempotent_witness :
    allHandlesNull (android_camera2_capture_stop
      { newAndroidCamera2Context with
          capturing := true, cameraDevice := true,
          captureSessionOutputContainer := true, captureWindow := true,
          captureRequest := true, cameraCaptureOutputTarget := true,
          sessionCaptureOutput := true, imageReader := true }).1 = true ∧
    android_camera2_capture_stop (android_camera2_capture_stop
      { newAndroidCamera2Context with
          capturing := true, cameraDevice := true,
          captureSessionOutputContainer := true, captureWindow := true,
          captureRequest := true, cameraCaptureOutputTarget := true,
          sessionCaptureOutput := true, imageReader := true }).1
      = ((android_camera2_capture_stop
      { newAndroidCamera2Context with
          capturing := true, cameraDevice := true,
          captureSessionOutputContainer := true, captureWindow := true,
          captureRequest := true, cameraCaptureOutputTarget := true,
          sessionCaptureOutput := true, imageReader := true }).1,
        [Event.warnAlreadyStopped]) ∧
    android_camera2_capture_stop newAndroidCamera2Context
      = (newAndroidCamera2Context, [Event.warnAlreadyStopped]) := by
  have h := C7_stop_idempotent
    { newAndroidCamera2Context with
        capturing := true, cameraDevice := true,
        captureSessionOutputContainer := true, captureWindow := true,
        captureRequest := true, cameraCaptureOutputTarget := true,
        sessionCaptureOutput := true, imageReader := true }
  exact ⟨(h.2.1 rfl).1, (h.2.1 rfl).2.2, h.2.2.1⟩

/- ********************* Theorems: C1 ********************* -/

/-- Events compatible with a forever-null capture session: no
stopRepeating, no session close, and every repeating-request submission
carries a null session handle. -/
def sessionNullEvent : Event → Prop
  | .stopRepeating => False
  | .closeSession => False
  | .setRepeatingRequest b => b = false
  | _ => True

theorem open_camera_captureSession (p : Platform) (d : AndroidCamera2Context) :
    (android_camera2_capture_open_camera p d).captureSession = d.captureSession := by
  unfold android_camera2_capture_open_camera
  rcases hd : d.device with _ | dev
  · rfl
  · cases hop : p.openOk <;> simp [hop]

theorem start_captureSession (p : Platform) (d : AndroidCamera2Context) :
    (android_camera2_capture_start p d).1.captureSession = d.captureSession := by
  unfold android_camera2_capture_start
  split_ifs <;> simp [open_camera_captureSession]

theorem start_events_cases (p : Platform) (d : AndroidCamera2Context) :
    (android_camera2_capture_start p d).2 = [Event.warnNotConfigured] ∨
    (android_camera2_capture_start p d).2 = [Event.warnAlreadyCapturing] ∨
    (android_camera2_capture_start p d).2 = [] ∨
    (android_camera2_capture_start p d).2 = [Event.setRepeatingRequest d.captureSession] := by
  unfold android_camera2_capture_start
  split_ifs <;> simp [open_camera_captureSession]

theorem stop_captureSession (d : AndroidCamera2Context) (h : d.captureSession = false) :
    (android_camera2_capture_stop d).1.captureSession = false := by
  cases hc : d.capturing
  · rw [stop_not_capturing d hc]
    exact h
  · rw [stop_capturing d hc]

theorem stop_events_null (d : AndroidCamera2Context) (h : d.captureSession = false) :
    (android_camera2_capture_stop d).2 = [Event.warnAlreadyStopped] ∨
    (android_camera2_capture_stop d).2 = [] := by
  cases hc : d.capturing
  · rw [stop_not_capturing d hc]
    left
    rfl
  · rw [stop_capturing d hc, h]
    right
    rfl

theorem choose_best_captureSession (cfgs : List StreamConfig) (d : AndroidCamera2Context) :
    (android_camera2_capture_choose_best_configurations cfgs d).captureSession
      = d.captureSession := by
  unfold android_camera2_capture_choose_best_configurations
  dsimp only
  split <;> rfl

theorem start_sessionNull (p : Platform) (d : AndroidCamera2Context)
    (h : d.captureSession = false) :
    (android_camera2_capture_start p d).1.captureSession = false ∧
    ∀ e ∈ (android_camera2_capture_start p d).2, sessionNullEvent e := by
  refine ⟨by rw [start_captureSession]; exact h, ?_⟩
  intro e he
  rcases start_events_cases p d with hev | hev | hev | hev <;> rw [hev] at he <;> simp at he <;>
    subst he
  · trivial
  · trivial
  · exact h

theorem stop_sessionNull (d : AndroidCamera2Context) (h : d.captureSession = false) :
    (android_camera2_capture_stop d).1.captureSession = false ∧
    ∀ e ∈ (android_camera2_capture_stop d).2, sessionNullEvent e := by
  refine ⟨stop_captureSession d h, ?_⟩
  intro e he
  rcases stop_events_null d h with hev | hev <;> rw [hev] at he <;> simp at he
  subst he
  trivial

theorem preprocess_sessionNull (p : Platform) (d : AndroidCamera2Context)
    (h : d.captureSession = false) :
    (android_camera2_capture_preprocess p d).1.captureSession = false ∧
    ∀ e ∈ (android_camera2_capture_preprocess p d).2, sessionNullEvent e := by
  unfold android_camera2_capture_preprocess
  split_ifs with hc
  · exact start_sessionNull p d h
  · exact ⟨h, by simp⟩

theorem postprocess_sessionNull (d : AndroidCamera2Context)
    (h : d.captureSession = false) :
    (android_camera2_capture_postprocess d).1.captureSession = false ∧
    ∀ e ∈ (android_camera2_capture_postprocess d).2, sessionNullEvent e := by
  unfold android_camera2_capture_postprocess
  split_ifs with hc
  · exact stop_sessionNull d h
  · exact ⟨h, by simp⟩

theorem set_vsize_sessionNull (p : Platform) (cfgs : List StreamConfig)
    (sz : MSVideoSize) (d : AndroidCamera2Context) (h : d.captureSession = false) :
    (android_camera2_capture_set_vsize p cfgs sz d).2.1.captureSession = false ∧
    ∀ e ∈ (android_camera2_capture_set_vsize p cfgs sz d).2.2, sessionNullEvent e := by
  unfold android_camera2_capture_set_vsize
  split_ifs with heq
  · exact ⟨h, by simp⟩
  · dsimp only
    have hstop := stop_sessionNull { d with captureSize := sz } h
    have hchoose : (android_camera2_capture_choose_best_configurations cfgs
        (android_camera2_capture_stop { d with captureSize := sz }).1).captureSession
        = false := by
      rw [choose_best_captureSession]
      exact hstop.1
    have hstart := start_sessionNull p _ hchoose
    refine ⟨hstart.1, ?_⟩
    intro e he
    simp only [List.mem_append, List.mem_singleton] at he
    rcases he with (he | he) | he
    · exact hstop.2 e he
    · exact hstart.2 e he
    · subst he
      trivial

theorem filterStep_sessionNull (d : AndroidCamera2Context) (op : FilterOp)
    (h : d.captureSession = false) :
    (filterStep d op).1.captureSession = false ∧
    ∀ e ∈ (filterStep d op).2, sessionNullEvent e := by
  cases op with
  | bindDevice dev => exact ⟨h, by simp [filterStep]⟩
  | preprocessOp p => exact preprocess_sessionNull p d h
  | processOp =>
    refine ⟨?_, by simp [filterStep]⟩
    show (android_camera2_capture_process d).1.captureSession = false
    unfold android_camera2_capture_process
    rcases hf : d.frame with _ | m <;> simp [hf, h]
  | postprocessOp => exact postprocess_sessionNull d h
  | startOp p => exact start_sessionNull p d h
  | stopOp => exact stop_sessionNull d h
  | setVsizeOp p cfgs sz => exact set_vsize_sessionNull p cfgs sz d h
  | setRotationOp r => exact ⟨h, by simp [filterStep]⟩
  | onImageOp m f a fp c =>
    refine ⟨?_, by simp [filterStep]⟩
    show (android_camera2_capture_on_image_available m f a fp c d).1.captureSession = false
    unfold android_camera2_capture_on_image_available
    split_ifs <;> first
      | exact h
      | (rcases hf : d.frame with _ | old <;> simp [hf, h])

theorem filterRun_sessionNull (ops : List FilterOp) :
    ∀ d : AndroidCamera2Context, d.captureSession = false →
    (filterRun d ops).1.captureSession = false ∧
    ∀ e ∈ (filterRun d ops).2, sessionNullEvent e := by
  induction ops with
  | nil =>
    intro d h
    exact ⟨h, by simp [filterRun]⟩
  | cons op ops ih =>
    intro d h
    have h1 := filterStep_sessionNull d op h
    have h2 := ih (filterStep d op).1 h1.1
    refine ⟨h2.1, ?_⟩
    intro e he
    simp only [filterRun, List.mem_append] at he
    rcases he with he | he
    · exact h1.2 e he
    · exact h2.2 e he

/-- C1: in every state reachable from the freshly constructed filter
through any sequence of lifecycle operations, the `captureSession`
handle is null; consequently every repeating capture request is issued
with a null session handle, and the session-stopping branch of stop()
(stopRepeating/close) never executes. -/
theorem C1_capture_session_always_null (ops : List FilterOp) :
    (filterRun newAndroidCamera2Context ops).1.captureSession = false ∧
    (∀ e ∈ (filterRun newAndroidCamera2Context ops).2, sessionNullEvent e) := by
  exact filterRun_sessionNull ops newAndroidCamera2Context rfl

/-- C1 witness: a run that actually issues a repeating request — bind a
device, then set a size that negotiates successfully; the submission
event carries a null session handle and no stopRepeating/close occurs. -/
theorem C1_capture_session_always_null_witness :
    Event.setRepeatingRequest false ∈ (filterRun newAndroidCamera2Context
      [FilterOp.bindDevice ⟨0, 90, true⟩,
       FilterOp.setVsizeOp ⟨true, true, true, true⟩ [⟨35, 640, 480, false⟩] ⟨640, 480⟩,
       FilterOp.stopOp]).2 ∧
    sessionNullEvent (Event.setRepeatingRequest false) ∧
    (filterRun newAndroidCamera2Context
      [FilterOp.bindDevice ⟨0, 90, true⟩,
       FilterOp.setVsizeOp ⟨true, true, true, true⟩ [⟨35, 640, 480, false⟩] ⟨640, 480⟩,
       FilterOp.stopOp]).1.captureSession = false :=
  ⟨by decide,
   (C1_capture_session_always_null
      [FilterOp.bindDevice ⟨0, 90, true⟩,
       FilterOp.setVsizeOp ⟨true, true, true, true⟩ [⟨35, 640, 480, false⟩] ⟨640, 480⟩,
       FilterOp.stopOp]).2 (Event.setRepeatingRequest false) (by decide),
   (C1_capture_session_always_null
      [FilterOp.bindDevice ⟨0, 90, true⟩,
       FilterOp.setVsizeOp ⟨true, true, true, true⟩ [⟨35, 640, 480, false⟩] ⟨640, 480⟩,
       FilterOp.stopOp]).1⟩

/- ********************* Theorems: C10 ********************* -/

theorem start_not_configured (p : Platform) (d : AndroidCamera2Context)
    (h : d.captureSize.width = 0 ∨ d.captureSize.height = 0) :
    android_camera2_capture_start p d = (d, [Event.warnNotConfigured]) := by
  unfold android_camera2_capture_start
  rw [if_pos h]

theorem stop_fields (d : AndroidCamera2Context) :
    (android_camera2_capture_stop d).1.captureSize = d.captureSize ∧
    (android_camera2_capture_stop d).1.captureFormat = d.captureFormat ∧
    (android_camera2_capture_stop d).1.capturing = false := by
  cases hc : d.capturing
  · rw [stop_not_capturing d hc]
    exact ⟨rfl, rfl, hc⟩
  · rw [stop_capturing d hc]
    exact ⟨rfl, rfl, rfl⟩

theorem choose_loop_no_match (askedSize : MSVideoSize) (fmt : Int)
    (cfgs : List StreamConfig) (backup : MSVideoSize) (found : Bool)
    (h : ∀ c ∈ cfgs, c.input = true ∨ c.format ≠ fmt) :
    android_camera2_capture_choose_loop askedSize fmt cfgs backup found
      = (backup, found) := by
  induction cfgs with
  | nil => rfl
  | cons c rest ih =>
    have hrest : ∀ x ∈ rest, x.input = true ∨ x.format ≠ fmt :=
      fun x hx => h x (List.mem_cons_of_mem c hx)
    unfold android_camera2_capture_choose_loop
    by_cases hci : c.input = true
    · simp only [hci, if_true]
      exact ih hrest
    · have hfmt : c.format ≠ fmt := (h c (List.mem_cons_self c rest)).resolve_left hci
      simp only [Bool.not_eq_true] at hci
      rw [hci]
      rw [if_neg (by simp), if_neg hfmt]
      exact ih hrest

theorem choose_best_no_match (cfgs : List StreamConfig) (d : AndroidCamera2Context)
    (h : ∀ c ∈ cfgs, c.input = true ∨ c.format ≠ d.captureFormat) :
    android_camera2_capture_choose_best_configurations cfgs d
      = { d with captureSize := ⟨0, 0⟩ } := by
  unfold android_camera2_capture_choose_best_configurations
  rw [choose_loop_no_match _ _ _ _ _ h]
  rfl

/-- C10: a setSize to a genuinely new size, against a configuration
list with no non-input entry of the target capture format, leaves the
configured size at the (0,0) backup default, so the restart is
suppressed by the zero-size guard (capturing stays false), yet the
size-changed notification is still emitted to the host carrying
(0,0), and the call returns 0 (success). -/
theorem C10_no_match_backup_zero (p : Platform) (cfgs : List StreamConfig)
    (d : AndroidCamera2Context) (req : MSVideoSize)
    (hneq : ¬(d.captureSize.width = req.width ∧ d.captureSize.height = req.height))
    (hnm : ∀ c ∈ cfgs, c.input = true ∨ c.format ≠ d.captureFormat) :
    (android_camera2_capture_set_vsize p cfgs req d).1 = 0 ∧
    (android_camera2_capture_set_vsize p cfgs req d).2.1.captureSize = ⟨0, 0⟩ ∧
    (android_camera2_capture_set_vsize p cfgs req d).2.1.capturing = false ∧
    Event.notifyPreviewSizeChanged ⟨0, 0⟩
      ∈ (android_camera2_capture_set_vsize p cfgs req d).2.2 ∧
    Event.warnNotConfigured ∈ (android_camera2_capture_set_vsize p cfgs req d).2.2 := by
  have hfmt : (android_camera2_capture_stop { d with captureSize := req }).1.captureFormat
      = d.captureFormat := (stop_fields { d with captureSize := req }).2.1
  have hchoose := choose_best_no_match cfgs
    (android_camera2_capture_stop { d with captureSize := req }).1
    (by rw [hfmt]; exact hnm)
  have hstart := start_not_configured p
    ({ (android_camera2_capture_stop { d with captureSize := req }).1 with
        captureSize := (⟨0, 0⟩ : MSVideoSize) }) (Or.inl rfl)
  unfold android_camera2_capture_set_vsize
  rw [if_neg hneq]
  dsimp only
  rw [hchoose, hstart]
  refine ⟨rfl, rfl, (stop_fields { d with captureSize := req }).2.2, ?_, ?_⟩ <;> simp

/-- C10 witness: an unconfigured context asked for 640×480 against a
single configuration of a different format. -/
theorem C10_no_match_backup_zero_witness :
    (android_camera2_capture_set_vsize ⟨true, true, true, true⟩ [⟨20, 640, 480, false⟩]
      ⟨640, 480⟩ newAndroidCamera2Context).1 = 0 ∧
    (android_camera2_capture_set_vsize ⟨true, true, true, true⟩ [⟨20, 640, 480, false⟩]
      ⟨640, 480⟩ newAndroidCamera2Context).2.1.captureSize = ⟨0, 0⟩ ∧
    (android_camera2_capture_set_vsize ⟨true, true, true, true⟩ [⟨20, 640, 480, false⟩]
      ⟨640, 480⟩ newAndroidCamera2Context).2.1.capturing = false ∧
    Event.notifyPreviewSizeChanged ⟨0, 0⟩
      ∈ (android_camera2_capture_set_vsize ⟨true, true, true, true⟩ [⟨20, 640, 480, false⟩]
        ⟨640, 480⟩ newAndroidCamera2Context).2.2 ∧
    Event.warnNotConfigured
      ∈ (android_camera2_capture_set_vsize ⟨true, true, true, true⟩ [⟨20, 640, 480, false⟩]
        ⟨640, 480⟩ newAndroidCamera2Context).2.2 :=
  C10_no_match_backup_zero ⟨true, true, true, true⟩ [⟨20, 640, 480, false⟩]
    newAndroidCamera2Context ⟨640, 480⟩ (by decide) (by decide)


/- ********************* FrameSlot (C6) ********************* -/

/-- One FrameSlot operation: a `store` performed by the mutex-guarded
block of android_camera2_capture_on_image_available, or a drain
performed by android_camera2_capture_process. -/
inductive SlotOp
  | store (m : Nat)
  | drain
deriving DecidableEq, Repr

/-- FrameSlot bookkeeping: the held frame (`d->frame`), the frames
released with freemsg (in release order), and the frames handed to the
output queue (in delivery order). -/
structure SlotState where
  slot : Option Nat
  freed : List Nat
  delivered : List Nat
deriving DecidableEq, Repr

/-- One step: `store` frees the currently held frame (if any) and
replaces it — the callback's `if (d->frame) freemsg(d->frame);
d->frame = m` — while `drain` moves the held frame (if any) to the
output queue and clears the slot. -/
def slotStep (s : SlotState) : SlotOp → SlotState
  | .store m =>
    { slot := some m,
      freed := match s.slot with
        | some old => s.freed ++ [old]
        | none => s.freed,
      delivered := s.delivered }
  | .drain =>
    match s.slot with
    | some m => { slot := none, freed := s.freed, delivered := s.delivered ++ [m] }
    | none => s

/-- Run a trace of interleaved stores and drains from the empty slot. -/
def slotRun (ops : List SlotOp) : SlotState :=
  ops.foldl slotStep ⟨none, [], []⟩

/-- The frame ids stored along a trace, in order. -/
def storedIds : List SlotOp → List Nat
  | [] => []
  | SlotOp.store m :: rest => m :: storedIds rest
  | SlotOp.drain :: rest => storedIds rest

/-- The slot content dictated by the latest-wins discipline: it is
decided by the last operation alone — a trailing store holds exactly
that frame, a trailing drain leaves the slot empty. -/
def lastOpView (ops : List SlotOp) : Option Nat :=
  match ops.getLast? with
  | some (SlotOp.store m) => some m
  | some SlotOp.drain => none
  | none => none

theorem slot_fold_slot (ops : List SlotOp) :
    ∀ s : SlotState,
    (ops.foldl slotStep s).slot =
      (match ops.getLast? with
       | some (SlotOp.store m) => some m
       | some SlotOp.drain => none
       | none => s.slot) := by
  induction ops with
  | nil => intro s; rfl
  | cons op rest ih =>
    intro s
    cases rest with
    | nil =>
      cases op with
      | store m => rfl
      | drain =>
        show (slotStep s SlotOp.drain).slot = none
        unfold slotStep
        rcases hs : s.slot with _ | m
        · simp [hs]
        · simp
    | cons op2 rest2 =>
      rw [List.foldl_cons, ih (slotStep s op), List.getLast?_cons_cons]
      rcases hl : (op2 :: rest2).getLast? with _ | last
      · rw [List.getLast?_eq_none_iff] at hl
        cases hl
      · cases last <;> rfl

theorem slot_fold_perm (ops : List SlotOp) :
    ∀ s : SlotState,
    ((ops.foldl slotStep s).freed ++ (ops.foldl slotStep s).delivered
      ++ (ops.foldl slotStep s).slot.toList).Perm
      (s.freed ++ s.delivered ++ s.slot.toList ++ storedIds ops) := by
  induction ops with
  | nil =>
    intro s
    simp [storedIds]
  | cons op rest ih =>
    intro s
    rw [List.foldl_cons]
    refine (ih (slotStep s op)).trans ?_
    refine List.perm_iff_count.mpr fun a => ?_
    cases op with
    | store m =>
      rcases hs : s.slot with _ | old <;>
        simp [slotStep, hs, storedIds, Option.toList, List.count_append, List.count_cons] <;>
        try ring
    | drain =>
      rcases hs : s.slot with _ | m <;>
        simp [slotStep, hs, storedIds, Option.toList, List.count_append, List.count_cons]

/-- C6: for every interleaving of stores (image callback) and drains
(process hook), the slot — which by construction holds at most one
frame at any instant — ends up holding exactly the frame dictated by
the last operation (latest store wins, drain empties); the stored
frames are partitioned among freed, delivered and the slot (no leak);
and when the stored frames are distinct allocations, no frame is freed
twice and no frame is both freed and delivered (no double free). -/
theorem C6_frame_slot (ops : List SlotOp) (hnd : (storedIds ops).Nodup) :
    (slotRun ops).slot = lastOpView ops ∧
    ((slotRun ops).freed ++ (slotRun ops).delivered ++ (slotRun ops).slot.toList).Perm
      (storedIds ops) ∧
    (slotRun ops).freed.Nodup ∧
    (slotRun ops).delivered.Nodup ∧
    (∀ x ∈ (slotRun ops).freed, x ∉ (slotRun ops).delivered) ∧
    (∀ x, (slotRun ops).slot = some x → x ∉ (slotRun ops).freed ∧ x ∉ (slotRun ops).delivered) := by
  have hslot := slot_fold_slot ops ⟨none, [], []⟩
  have hperm : ((slotRun ops).freed ++ (slotRun ops).delivered
      ++ (slotRun ops).slot.toList).Perm (storedIds ops) := by
    have hm := slot_fold_perm ops ⟨none, [], []⟩
    simpa using hm
  have hnodAll : ((slotRun ops).freed ++ (slotRun ops).delivered
      ++ (slotRun ops).slot.toList).Nodup := hperm.nodup_iff.mpr hnd
  rw [List.append_assoc] at hnodAll
  have hfreedN : (slotRun ops).freed.Nodup := hnodAll.of_append_left
  have hrest : ((slotRun ops).delivered ++ (slotRun ops).slot.toList).Nodup :=
    hnodAll.of_append_right
  have hdelN : (slotRun ops).delivered.Nodup := hrest.of_append_left
  have hdisj : (slotRun ops).freed.Disjoint
      ((slotRun ops).delivered ++ (slotRun ops).slot.toList) :=
    List.disjoint_of_nodup_append hnodAll
  have hdisj2 : (slotRun ops).delivered.Disjoint (slotRun ops).slot.toList :=
    List.disjoint_of_nodup_append hrest
  refine ⟨hslot.trans rfl, hperm, hfreedN, hdelN, ?_, ?_⟩
  · intro x hx hx2
    exact hdisj hx (List.mem_append_left _ hx2)
  · intro x hx
    have hxl : x ∈ (slotRun ops).slot.toList := by
      rw [hx]
      simp [Option.toList]
    constructor
    · intro hxf
      exact hdisj hxf (List.mem_append_right _ hxl)
    · intro hxd
      exact hdisj2 hxd hxl

/-- C6 witness: the trace store 1, store 2, drain, store 3 — frame 1 is
overwritten and freed once, frame 2 is drained and delivered, frame 3
remains held (it is the most recent store). -/
theorem C6_frame_slot_witness :
    (slotRun [SlotOp.store 1, SlotOp.store 2, SlotOp.drain, SlotOp.store 3]).slot
      = lastOpView [SlotOp.store 1, SlotOp.store 2, SlotOp.drain, SlotOp.store 3] ∧
    ((slotRun [SlotOp.store 1, SlotOp.store 2, SlotOp.drain, SlotOp.store 3]).freed
      ++ (slotRun [SlotOp.store 1, SlotOp.store 2, SlotOp.drain, SlotOp.store 3]).delivered
      ++ (slotRun [SlotOp.store 1, SlotOp.store 2, SlotOp.drain, SlotOp.store 3]).slot.toList).Perm
      (storedIds [SlotOp.store 1, SlotOp.store 2, SlotOp.drain, SlotOp.store 3]) ∧
    (slotRun [SlotOp.store 1, SlotOp.store 2, SlotOp.drain, SlotOp.store 3]).freed.Nodup ∧
    (slotRun [SlotOp.store 1, SlotOp.store 2, SlotOp.drain, SlotOp.store 3]).delivered.Nodup ∧
    (∀ x ∈ (slotRun [SlotOp.store 1, SlotOp.store 2, SlotOp.drain, SlotOp.store 3]).freed,
      x ∉ (slotRun [SlotOp.store 1, SlotOp.store 2, SlotOp.drain, SlotOp.store 3]).delivered) ∧
    (∀ x, (slotRun [SlotOp.store 1, SlotOp.store 2, SlotOp.drain, SlotOp.store 3]).slot = some x →
      x ∉ (slotRun [SlotOp.store 1, SlotOp.store 2, SlotOp.drain, SlotOp.store 3]).freed ∧
      x ∉ (slotRun [SlotOp.store 1, SlotOp.store 2, SlotOp.drain, SlotOp.store 3]).delivered) :=
  C6_frame_slot [SlotOp.store 1, SlotOp.store 2, SlotOp.drain, SlotOp.store 3] (by decide)


/- ********************* Resolution negotiation (C5) ********************* -/

/-- Pixel area of a size. -/
def area (s : MSVideoSize) : Int := s.width * s.height

/-- The size carried by a stream configuration. -/
def cfgSize (c : StreamConfig) : MSVideoSize := ⟨c.width, c.height⟩

/-- The spec's |requested_area − candidate_area|. -/
def distTo (reqArea : Int) (s : MSVideoSize) : Int := |reqArea - area s|

/-- The non-input configurations matching the capture format, in
platform enumeration order: the candidates of the spec's negotiation
sentence. -/
def matchingConfigs (fmt : Int) (cfgs : List StreamConfig) : List StreamConfig :=
  cfgs.filter fun c => !c.input && decide (c.format = fmt)

theorem matchingConfigs_nil (fmt : Int) : matchingConfigs fmt [] = [] := rfl

theorem matchingConfigs_cons_skip (fmt : Int) (c : StreamConfig) (rest : List StreamConfig)
    (h : c.input = true ∨ c.format ≠ fmt) :
    matchingConfigs fmt (c :: rest) = matchingConfigs fmt rest := by
  rcases h with h | h <;> simp [matchingConfigs, h]

theorem matchingConfigs_cons_match (fmt : Int) (c : StreamConfig) (rest : List StreamConfig)
    (h1 : c.input = false) (h2 : c.format = fmt) :
    matchingConfigs fmt (c :: rest) = c :: matchingConfigs fmt rest := by
  simp [matchingConfigs, h1, h2]

theorem choose_loop_cons_skip_input (asked : MSVideoSize) (fmt : Int) (c : StreamConfig)
    (rest : List StreamConfig) (b : MSVideoSize) (f : Bool) (h1 : c.input = true) :
    android_camera2_capture_choose_loop asked fmt (c :: rest) b f
      = android_camera2_capture_choose_loop asked fmt rest b f := by
  conv_lhs => unfold android_camera2_capture_choose_loop
  rw [if_pos h1]

theorem choose_loop_cons_skip_fmt (asked : MSVideoSize) (fmt : Int) (c : StreamConfig)
    (rest : List StreamConfig) (b : MSVideoSize) (f : Bool)
    (h1 : c.input = false) (h2 : c.format ≠ fmt) :
    android_camera2_capture_choose_loop asked fmt (c :: rest) b f
      = android_camera2_capture_choose_loop asked fmt rest b f := by
  conv_lhs => unfold android_camera2_capture_choose_loop
  rw [h1, if_neg Bool.false_ne_true, if_neg h2]

theorem choose_loop_cons_exact (asked : MSVideoSize) (fmt : Int) (c : StreamConfig)
    (rest : List StreamConfig) (b : MSVideoSize) (f : Bool)
    (h1 : c.input = false) (h2 : c.format = fmt)
    (h3 : c.width = asked.width ∧ c.height = asked.height) :
    android_camera2_capture_choose_loop asked fmt (c :: rest) b f
      = android_camera2_capture_choose_loop asked fmt rest b true := by
  conv_lhs => unfold android_camera2_capture_choose_loop
  rw [h1, if_neg Bool.false_ne_true, if_pos h2, if_pos h3]

theorem choose_loop_cons_update (asked : MSVideoSize) (fmt : Int) (c : StreamConfig)
    (rest : List StreamConfig) (b : MSVideoSize) (f : Bool)
    (h1 : c.input = false) (h2 : c.format = fmt)
    (h3 : ¬(c.width = asked.width ∧ c.height = asked.height))
    (h4 : b.width * b.height = 0 ∨
      |asked.width * asked.height - c.width * c.height|
        < |asked.width * asked.height - b.width * b.height|) :
    android_camera2_capture_choose_loop asked fmt (c :: rest) b f
      = android_camera2_capture_choose_loop asked fmt rest ⟨c.width, c.height⟩ f := by
  conv_lhs => unfold android_camera2_capture_choose_loop
  rw [h1, if_neg Bool.false_ne_true, if_pos h2, if_neg h3]
  dsimp only
  rw [if_pos h4]

theorem choose_loop_cons_keep (asked : MSVideoSize) (fmt : Int) (c : StreamConfig)
    (rest : List StreamConfig) (b : MSVideoSize) (f : Bool)
    (h1 : c.input = false) (h2 : c.format = fmt)
    (h3 : ¬(c.width = asked.width ∧ c.height = asked.height))
    (h4 : ¬(b.width * b.height = 0 ∨
      |asked.width * asked.height - c.width * c.height|
        < |asked.width * asked.height - b.width * b.height|)) :
    android_camera2_capture_choose_loop asked fmt (c :: rest) b f
      = android_camera2_capture_choose_loop asked fmt rest b f := by
  conv_lhs => unfold android_camera2_capture_choose_loop
  rw [h1, if_neg Bool.false_ne_true, if_pos h2, if_neg h3]
  dsimp only
  rw [if_neg h4]


theorem choose_loop_found_mono (asked : MSVideoSize) (fmt : Int) (cfgs : List StreamConfig) :
    ∀ b : MSVideoSize, (android_camera2_capture_choose_loop asked fmt cfgs b true).2 = true := by
  induction cfgs with
  | nil => intro b; rfl
  | cons c rest ih =>
    intro b
    by_cases hci : c.input = true
    · rw [choose_loop_cons_skip_input asked fmt c rest b true hci]
      exact ih b
    · have hci2 : c.input = false := by simpa using hci
      by_cases hcf : c.format = fmt
      · by_cases hex : c.width = asked.width ∧ c.height = asked.height
        · rw [choose_loop_cons_exact asked fmt c rest b true hci2 hcf hex]
          exact ih b
        · by_cases hcond : b.width * b.height = 0 ∨
            |asked.width * asked.height - c.width * c.height|
              < |asked.width * asked.height - b.width * b.height|
          · rw [choose_loop_cons_update asked fmt c rest b true hci2 hcf hex hcond]
            exact ih _
          · rw [choose_loop_cons_keep asked fmt c rest b true hci2 hcf hex hcond]
            exact ih b
      · rw [choose_loop_cons_skip_fmt asked fmt c rest b true hci2 hcf]
        exact ih b

theorem choose_loop_found (asked : MSVideoSize) (fmt : Int) (cfgs : List StreamConfig) :
    ∀ (b : MSVideoSize) (f : Bool),
    (∃ c ∈ matchingConfigs fmt cfgs, c.width = asked.width ∧ c.height = asked.height) →
    (android_camera2_capture_choose_loop asked fmt cfgs b f).2 = true := by
  induction cfgs with
  | nil =>
    intro b f h
    simp [matchingConfigs] at h
  | cons c rest ih =>
    intro b f h
    by_cases hci : c.input = true
    · rw [choose_loop_cons_skip_input asked fmt c rest b f hci]
      apply ih
      rwa [matchingConfigs_cons_skip fmt c rest (Or.inl hci)] at h
    · have hci2 : c.input = false := by simpa using hci
      by_cases hcf : c.format = fmt
      · rw [matchingConfigs_cons_match fmt c rest hci2 hcf] at h
        by_cases hex : c.width = asked.width ∧ c.height = asked.height
        · rw [choose_loop_cons_exact asked fmt c rest b f hci2 hcf hex]
          exact choose_loop_found_mono asked fmt rest b
        · have h2 : ∃ x ∈ matchingConfigs fmt rest,
              x.width = asked.width ∧ x.height = asked.height := by
            rcases h with ⟨x, hx, hxe⟩
            rcases List.mem_cons.mp hx with rfl | hx
            · exact absurd hxe hex
            · exact ⟨x, hx, hxe⟩
          by_cases hcond : b.width * b.height = 0 ∨
            |asked.width * asked.height - c.width * c.height|
              < |asked.width * asked.height - b.width * b.height|
          · rw [choose_loop_cons_update asked fmt c rest b f hci2 hcf hex hcond]
            exact ih _ f h2
          · rw [choose_loop_cons_keep asked fmt c rest b f hci2 hcf hex hcond]
            exact ih b f h2
      · rw [choose_loop_cons_skip_fmt asked fmt c rest b f hci2 hcf]
        apply ih
        rwa [matchingConfigs_cons_skip fmt c rest (Or.inr hcf)] at h

theorem choose_loop_pos (asked : MSVideoSize) (fmt : Int) (cfgs : List StreamConfig) :
    ∀ (b : MSVideoSize) (f : Bool),
    (∀ c ∈ matchingConfigs fmt cfgs, ¬(c.width = asked.width ∧ c.height = asked.height)) →
    (∀ c ∈ matchingConfigs fmt cfgs, 0 < area (cfgSize c)) →
    0 < area b →
    (android_camera2_capture_choose_loop asked fmt cfgs b f).2 = f ∧
    (((android_camera2_capture_choose_loop asked fmt cfgs b f).1 = b ∧
       ∀ c ∈ matchingConfigs fmt cfgs,
         distTo (area asked) b ≤ distTo (area asked) (cfgSize c)) ∨
     (∃ l₁ c₀ l₂, matchingConfigs fmt cfgs = l₁ ++ c₀ :: l₂ ∧
       (android_camera2_capture_choose_loop asked fmt cfgs b f).1 = cfgSize c₀ ∧
       distTo (area asked) (cfgSize c₀) < distTo (area asked) b ∧
       (∀ x ∈ l₁, distTo (area asked) (cfgSize c₀) < distTo (area asked) (cfgSize x)) ∧
       (∀ x ∈ matchingConfigs fmt cfgs,
         distTo (area asked) (cfgSize c₀) ≤ distTo (area asked) (cfgSize x)))) := by
  induction cfgs with
  | nil =>
    intro b f hne hpos hb
    refine ⟨rfl, Or.inl ⟨rfl, ?_⟩⟩
    intro c hc
    simp [matchingConfigs] at hc
  | cons c rest ih =>
    intro b f hne hpos hb
    by_cases hci : c.input = true
    · rw [choose_loop_cons_skip_input asked fmt c rest b f hci]
      rw [matchingConfigs_cons_skip fmt c rest (Or.inl hci)] at hne hpos ⊢
      exact ih b f hne hpos hb
    · have hci2 : c.input = false := by simpa using hci
      by_cases hcf : c.format = fmt
      · rw [matchingConfigs_cons_match fmt c rest hci2 hcf] at hne hpos ⊢
        have hcne := hne c (List.mem_cons_self c _)
        have hcpos := hpos c (List.mem_cons_self c _)
        have hne2 : ∀ x ∈ matchingConfigs fmt rest,
            ¬(x.width = asked.width ∧ x.height = asked.height) :=
          fun x hx => hne x (List.mem_cons_of_mem c hx)
        have hpos2 : ∀ x ∈ matchingConfigs fmt rest, 0 < area (cfgSize x) :=
          fun x hx => hpos x (List.mem_cons_of_mem c hx)
        by_cases hlt : distTo (area asked) (cfgSize c) < distTo (area asked) b
        · rw [choose_loop_cons_update asked fmt c rest b f hci2 hcf hcne (Or.inr hlt)]
          have hrec := ih (cfgSize c) f hne2 hpos2 hcpos
          refine ⟨hrec.1, ?_⟩
          rcases hrec.2 with ⟨heq, hle⟩ | ⟨l₁, c₀, l₂, hsplit, heq, hltb, hstrict, hall⟩
          · refine Or.inr ⟨[], c, matchingConfigs fmt rest, by simp, heq, hlt, by simp, ?_⟩
            intro x hx
            rcases List.mem_cons.mp hx with rfl | hx
            · exact le_refl _
            · exact hle x hx
          · refine Or.inr ⟨c :: l₁, c₀, l₂, by simp [hsplit], heq,
              lt_trans hltb hlt, ?_, ?_⟩
            · intro x hx
              rcases List.mem_cons.mp hx with rfl | hx
              · exact hltb
              · exact hstrict x hx
            · intro x hx
              rcases List.mem_cons.mp hx with rfl | hx
              · exact le_of_lt hltb
              · exact hall x hx
        · have hcond : ¬(b.width * b.height = 0 ∨
              |asked.width * asked.height - c.width * c.height|
                < |asked.width * asked.height - b.width * b.height|) := by
            push_neg
            constructor
            · have : (0 : Int) < b.width * b.height := hb
              omega
            · exact not_lt.mp hlt
          rw [choose_loop_cons_keep asked fmt c rest b f hci2 hcf hcne hcond]
          have hrec := ih b f hne2 hpos2 hb
          refine ⟨hrec.1, ?_⟩
          rcases hrec.2 with ⟨heq, hle⟩ | ⟨l₁, c₀, l₂, hsplit, heq, hltb, hstrict, hall⟩
          · refine Or.inl ⟨heq, ?_⟩
            intro x hx
            rcases List.mem_cons.mp hx with rfl | hx
            · exact not_lt.mp hlt
            · exact hle x hx
          · refine Or.inr ⟨c :: l₁, c₀, l₂, by simp [hsplit], heq, hltb, ?_, ?_⟩
            · intro x hx
              rcases List.mem_cons.mp hx with rfl | hx
              · exact lt_of_lt_of_le hltb (not_lt.mp hlt)
              · exact hstrict x hx
            · intro x hx
              rcases List.mem_cons.mp hx with rfl | hx
              · exact le_trans (le_of_lt hltb) (not_lt.mp hlt)
              · exact hall x hx
      · rw [choose_loop_cons_skip_fmt asked fmt c rest b f hci2 hcf]
        rw [matchingConfigs_cons_skip fmt c rest (Or.inr hcf)] at hne hpos ⊢
        exact ih b f hne hpos hb


theorem choose_loop_zero (asked : MSVideoSize) (fmt : Int) (cfgs : List StreamConfig) :
    ∀ (b : MSVideoSize) (f : Bool),
    (∀ c ∈ matchingConfigs fmt cfgs, ¬(c.width = asked.width ∧ c.height = asked.height)) →
    (∀ c ∈ matchingConfigs fmt cfgs, 0 < area (cfgSize c)) →
    area b = 0 →
    (android_camera2_capture_choose_loop asked fmt cfgs b f).2 = f ∧
    ((matchingConfigs fmt cfgs = [] ∧
        (android_camera2_capture_choose_loop asked fmt cfgs b f).1 = b) ∨
     (∃ l₁ c₀ l₂, matchingConfigs fmt cfgs = l₁ ++ c₀ :: l₂ ∧
       (android_camera2_capture_choose_loop asked fmt cfgs b f).1 = cfgSize c₀ ∧
       (∀ x ∈ l₁, distTo (area asked) (cfgSize c₀) < distTo (area asked) (cfgSize x)) ∧
       (∀ x ∈ matchingConfigs fmt cfgs,
         distTo (area asked) (cfgSize c₀) ≤ distTo (area asked) (cfgSize x)))) := by
  induction cfgs with
  | nil =>
    intro b f hne hpos hb
    exact ⟨rfl, Or.inl ⟨rfl, rfl⟩⟩
  | cons c rest ih =>
    intro b f hne hpos hb
    by_cases hci : c.input = true
    · rw [choose_loop_cons_skip_input asked fmt c rest b f hci]
      rw [matchingConfigs_cons_skip fmt c rest (Or.inl hci)] at hne hpos ⊢
      exact ih b f hne hpos hb
    · have hci2 : c.input = false := by simpa using hci
      by_cases hcf : c.format = fmt
      · rw [matchingConfigs_cons_match fmt c rest hci2 hcf] at hne hpos ⊢
        have hcne := hne c (List.mem_cons_self c _)
        have hcpos := hpos c (List.mem_cons_self c _)
        have hne2 : ∀ x ∈ matchingConfigs fmt rest,
            ¬(x.width = asked.width ∧ x.height = asked.height) :=
          fun x hx => hne x (List.mem_cons_of_mem c hx)
        have hpos2 : ∀ x ∈ matchingConfigs fmt rest, 0 < area (cfgSize x) :=
          fun x hx => hpos x (List.mem_cons_of_mem c hx)
        rw [choose_loop_cons_update asked fmt c rest b f hci2 hcf hcne (Or.inl hb)]
        have hrec := choose_loop_pos asked fmt rest (cfgSize c) f hne2 hpos2 hcpos
        refine ⟨hrec.1, ?_⟩
        rcases hrec.2 with ⟨heq, hle⟩ | ⟨l₁, c₀, l₂, hsplit, heq, hltb, hstrict, hall⟩
        · refine Or.inr ⟨[], c, matchingConfigs fmt rest, by simp, heq, by simp, ?_⟩
          intro x hx
          rcases List.mem_cons.mp hx with rfl | hx
          · exact le_refl _
          · exact hle x hx
        · refine Or.inr ⟨c :: l₁, c₀, l₂, by simp [hsplit], heq, ?_, ?_⟩
          · intro x hx
            rcases List.mem_cons.mp hx with rfl | hx
            · exact hltb
            · exact hstrict x hx
          · intro x hx
            rcases List.mem_cons.mp hx with rfl | hx
            · exact le_of_lt hltb
            · exact hall x hx
      · rw [choose_loop_cons_skip_fmt asked fmt c rest b f hci2 hcf]
        rw [matchingConfigs_cons_skip fmt c rest (Or.inr hcf)] at hne hpos ⊢
        exact ih b f hne hpos hb

/-- C5 counterexample: requested size 10×10 (area 100) against
candidates (0×5) (area 0, distance 100) and (300×1) (area 300,
distance 200), both of the capture format and neither an exact match.
The spec's rule selects the strictly closer 0×5; the code stores 0×5 in
the backup, then treats the backup's zero area as "unset" and replaces
it unconditionally, selecting 300×1. -/
theorem C5_counterexample :
    (android_camera2_capture_choose_best_configurations
      [⟨35, 0, 5, false⟩, ⟨35, 300, 1, false⟩]
      { newAndroidCamera2Context with captureSize := ⟨10, 10⟩ }).captureSize
      = ⟨300, 1⟩ ∧
    distTo 100 (cfgSize ⟨35, 0, 5, false⟩) < distTo 100 (cfgSize ⟨35, 300, 1, false⟩) ∧
    (⟨35, 0, 5, false⟩ : StreamConfig)
      ∈ matchingConfigs 35 [⟨35, 0, 5, false⟩, ⟨35, 300, 1, false⟩] ∧
    ¬∃ c ∈ matchingConfigs 35 [⟨35, 0, 5, false⟩, ⟨35, 300, 1, false⟩],
      c.width = (10 : Int) ∧ c.height = (10 : Int) := by
  refine ⟨by decide, by decide, by decide, by decide⟩

/-- C5 (amended): over configuration lists whose format-matching
non-input candidates all have positive area, negotiation is exactly the
spec's rule: if the requested size occurs among the candidates the
selection equals the request; otherwise the selected size is the
first-encountered candidate minimizing |requested_area − candidate_area|
(earlier candidates beat it strictly, no candidate beats it). -/
theorem C5_resolution_negotiation (cfgs : List StreamConfig) (d : AndroidCamera2Context)
    (hpos : ∀ c ∈ matchingConfigs d.captureFormat cfgs, 0 < area (cfgSize c)) :
    ((∃ c ∈ matchingConfigs d.captureFormat cfgs,
        c.width = d.captureSize.width ∧ c.height = d.captureSize.height) →
      (android_camera2_capture_choose_best_configurations cfgs d).captureSize
        = d.captureSize) ∧
    ((¬∃ c ∈ matchingConfigs d.captureFormat cfgs,
        c.width = d.captureSize.width ∧ c.height = d.captureSize.height) →
      matchingConfigs d.captureFormat cfgs ≠ [] →
      ∃ l₁ c₀ l₂, matchingConfigs d.captureFormat cfgs = l₁ ++ c₀ :: l₂ ∧
        (android_camera2_capture_choose_best_configurations cfgs d).captureSize
          = cfgSize c₀ ∧
        (∀ x ∈ l₁, distTo (area d.captureSize) (cfgSize c₀)
          < distTo (area d.captureSize) (cfgSize x)) ∧
        (∀ x ∈ matchingConfigs d.captureFormat cfgs,
          distTo (area d.captureSize) (cfgSize c₀)
            ≤ distTo (area d.captureSize) (cfgSize x))) := by
  constructor
  · intro hex
    unfold android_camera2_capture_choose_best_configurations
    dsimp only
    rw [choose_loop_found d.captureSize d.captureFormat cfgs ⟨0, 0⟩ false hex]
    rfl
  · intro hnex hne0
    have hne : ∀ c ∈ matchingConfigs d.captureFormat cfgs,
        ¬(c.width = d.captureSize.width ∧ c.height = d.captureSize.height) := by
      intro c hc hcon
      exact hnex ⟨c, hc, hcon⟩
    have hz := choose_loop_zero d.captureSize d.captureFormat cfgs ⟨0, 0⟩ false
      hne hpos (by decide)
    rcases hz.2 with ⟨hmz, _⟩ | ⟨l₁, c₀, l₂, hsplit, heq, hstrict, hall⟩
    · exact absurd hmz hne0
    · refine ⟨l₁, c₀, l₂, hsplit, ?_, hstrict, hall⟩
      unfold android_camera2_capture_choose_best_configurations
      dsimp only
      rw [hz.1]
      exact heq

/-- C5 witness: candidates 320×240 and 640×480 in format 35.  A request
of 640×480 (an exact match) is kept; the hypotheses (positive candidate
areas, existence of the exact match) hold by computation. -/
theorem C5_resolution_negotiation_witness :
    (android_camera2_capture_choose_best_configurations
      [⟨35, 320, 240, false⟩, ⟨35, 640, 480, false⟩]
      { newAndroidCamera2Context with captureSize := ⟨640, 480⟩ }).captureSize
      = ⟨640, 480⟩ :=
  (C5_resolution_negotiation [⟨35, 320, 240, false⟩, ⟨35, 640, 480, false⟩]
    { newAndroidCamera2Context with captureSize := ⟨640, 480⟩ }
    (by decide)).1 (by decide)

end Camera2
